import Mathlib

/-!
Verification of the swapchain / renderer / buffer core of the
Rust-Light-Vulkan-Engine repository, as a shallow embedding in Lean 4.

Conventions of the embedding:
* Vulkan handles (images, views, semaphores, fences, ...) are modelled as `Nat`;
  the null handle `vk::Fence::null()` is the value `0`.
* Vulkan enum values keep their numeric codes where a code matters
  (`vk::Format::B8G8R8A8_SRGB = 50`, ...); pure tag enums
  (load/store ops, layouts) are inductive types.
* Machine integers (`u32`, `u64`) are `Nat` with explicit `% 2 ^ 32` / `% 2 ^ 64`
  at the operations where Rust release-mode wrapping matters.
* Rust panics (`unwrap`, out-of-bounds indexing, `expect`) are modelled by
  `Option`/`none`.
* Calls into the Vulkan driver are modelled as trace events; driver responses
  (acquire results, present results) are explicit input parameters.
-/

/-- `MAX_FRAMES_IN_FLIGHT` from `lve_swapchain.rs` line 7. -/
def MAX_FRAMES_IN_FLIGHT : Nat := 2

/-- The value `u32::MAX`, used by `choose_swap_extent` as the sentinel test. -/
def U32_MAX : Nat := 2 ^ 32 - 1

/-- `vk::Extent2D`: a pair of `u32` dimensions. -/
structure Extent2D where
  width : Nat
  height : Nat
deriving DecidableEq

/-- `vk::SurfaceFormatKHR`: a (format, color space) pair, numeric enum codes. -/
structure SurfaceFormatKHR where
  format : Nat
  color_space : Nat
deriving DecidableEq

/-- `vk::Format::B8G8R8A8_SRGB` (Vulkan enum code 50). -/
def B8G8R8A8_SRGB : Nat := 50

/-- `vk::ColorSpaceKHR::SRGB_NONLINEAR` (Vulkan enum code 0). -/
def SRGB_NONLINEAR : Nat := 0

/-- `vk::Format::D32_SFLOAT` (Vulkan enum code 126). -/
def D32_SFLOAT : Nat := 126

/-- `vk::Format::D32_SFLOAT_S8_UINT` (Vulkan enum code 130). -/
def D32_SFLOAT_S8_UINT : Nat := 130

/-- `vk::Format::D24_UNORM_S8_UINT` (Vulkan enum code 129). -/
def D24_UNORM_S8_UINT : Nat := 129

/-- `vk::SurfaceCapabilitiesKHR`, restricted to the fields `choose_swap_extent`
and `create_swapchain` read. -/
structure SurfaceCapabilitiesKHR where
  current_extent : Extent2D
  min_image_extent : Extent2D
  max_image_extent : Extent2D
  min_image_count : Nat
  max_image_count : Nat
deriving DecidableEq

namespace LveSwapchain

/-- `LveSwapchain::choose_swap_surface_format` (`lve_swapchain.rs` 583-603):
`find` the first available format equal to the preferred
(`B8G8R8A8_SRGB`, `SRGB_NONLINEAR`) pair, `unwrap_or_else` falling back to
`available_formats[0]`.  The fallback indexing panics on an empty list, which
the embedding returns as `none`. -/
def choose_swap_surface_format (available_formats : List SurfaceFormatKHR) :
    Option SurfaceFormatKHR :=
  match available_formats.find? (fun available_format =>
      available_format.format == B8G8R8A8_SRGB
        && available_format.color_space == SRGB_NONLINEAR) with
  | some f => some f
  | none => available_formats[0]?

/-- `LveSwapchain::choose_swap_extent` (`lve_swapchain.rs` 625-643): return
`capabilities.current_extent` unless its `width` equals `u32::MAX`; otherwise
clamp the window extent componentwise with `max(min_image_extent, min(max_image_extent, window_extent))`. -/
def choose_swap_extent (capabilities : SurfaceCapabilitiesKHR)
    (window_extent : Extent2D) : Extent2D :=
  if capabilities.current_extent.width ≠ U32_MAX then
    capabilities.current_extent
  else
    { width := max capabilities.min_image_extent.width
        (min capabilities.max_image_extent.width window_extent.width)
      height := max capabilities.min_image_extent.height
        (min capabilities.max_image_extent.height window_extent.height) }

/-- `LveDevice::find_supported_format` (`lve_device.rs` 178-200), specialised to
one tiling mode: the device's feature query is abstracted as the predicate
`supported : Nat → Bool` (true iff the required feature flags are contained in
the format's reported optimal-tiling features).  The `expect` panic on
exhaustion is `none`. -/
def find_supported_format (supported : Nat → Bool) (candidates : List Nat) :
    Option Nat :=
  candidates.find? supported

/-- `LveSwapchain::find_depth_format` (`lve_swapchain.rs` 142-153): first
supported format among `[D32_SFLOAT, D32_SFLOAT_S8_UINT, D24_UNORM_S8_UINT]`
with optimal tiling and the depth-stencil-attachment feature. -/
def find_depth_format (supported : Nat → Bool) : Option Nat :=
  find_supported_format supported [D32_SFLOAT, D32_SFLOAT_S8_UINT, D24_UNORM_S8_UINT]

end LveSwapchain

namespace LveBuffer

/-- `LveBuffer::get_alignment` (`lve_buffer.rs` 242-251): for a positive
`min_offset_alignment` the Rust code computes the `u64` expression
`(instance_size + min_offset_alignment - 1) & !(min_offset_alignment - 1)`;
otherwise it returns `instance_size` unchanged.  The wrapping `u64` addition is
`% 2 ^ 64` and the bitwise NOT of `y` is `(2 ^ 64 - 1) ^^^ y`. -/
def get_alignment (instance_size min_offset_alignment : Nat) : Nat :=
  if 0 < min_offset_alignment then
    ((instance_size + min_offset_alignment - 1) % 2 ^ 64) &&&
      ((2 ^ 64 - 1) ^^^ (min_offset_alignment - 1))
  else
    instance_size

end LveBuffer

/-- `vk::AttachmentLoadOp`. -/
inductive AttachmentLoadOp where
  | LOAD
  | CLEAR
  | DONT_CARE
deriving DecidableEq

/-- `vk::AttachmentStoreOp`. -/
inductive AttachmentStoreOp where
  | STORE
  | DONT_CARE
deriving DecidableEq

/-- `vk::ImageLayout`, restricted to the layouts `create_render_pass` uses. -/
inductive ImageLayout where
  | UNDEFINED
  | COLOR_ATTACHMENT_OPTIMAL
  | DEPTH_STENCIL_ATTACHMENT_OPTIMAL
  | PRESENT_SRC_KHR
deriving DecidableEq

/-- `vk::AttachmentDescription` (builder fields set by `create_render_pass`). -/
structure AttachmentDescription where
  format : Nat
  samples : Nat
  load_op : AttachmentLoadOp
  store_op : AttachmentStoreOp
  stencil_load_op : AttachmentLoadOp
  stencil_store_op : AttachmentStoreOp
  initial_layout : ImageLayout
  final_layout : ImageLayout
deriving DecidableEq

/-- `vk::AttachmentReference`. -/
structure AttachmentReference where
  attachment : Nat
  layout : ImageLayout
deriving DecidableEq

/-- `vk::SubpassDescription` (graphics bind point is implicit: it is the only
one the source uses). -/
structure SubpassDescription where
  color_attachments : List AttachmentReference
  depth_stencil_attachment : AttachmentReference
deriving DecidableEq

/-- `vk::SUBPASS_EXTERNAL` (= `u32::MAX`). -/
def SUBPASS_EXTERNAL : Nat := U32_MAX

/-- `vk::PipelineStageFlags::COLOR_ATTACHMENT_OUTPUT` (bit 0x400). -/
def PIPELINE_STAGE_COLOR_ATTACHMENT_OUTPUT : Nat := 0x400

/-- `vk::PipelineStageFlags::EARLY_FRAGMENT_TESTS` (bit 0x100). -/
def PIPELINE_STAGE_EARLY_FRAGMENT_TESTS : Nat := 0x100

/-- `vk::AccessFlags::COLOR_ATTACHMENT_WRITE` (bit 0x100). -/
def ACCESS_COLOR_ATTACHMENT_WRITE : Nat := 0x100

/-- `vk::AccessFlags::DEPTH_STENCIL_ATTACHMENT_WRITE` (bit 0x400). -/
def ACCESS_DEPTH_STENCIL_ATTACHMENT_WRITE : Nat := 0x400

/-- `vk::SubpassDependency` (flag sets as `u32` bitmasks). -/
structure SubpassDependency where
  src_subpass : Nat
  dst_subpass : Nat
  src_stage_mask : Nat
  dst_stage_mask : Nat
  src_access_mask : Nat
  dst_access_mask : Nat
deriving DecidableEq

/-- `vk::RenderPassCreateInfo` as assembled at `lve_swapchain.rs` 480-484. -/
structure RenderPassCreateInfo where
  attachments : List AttachmentDescription
  subpasses : List SubpassDescription
  dependencies : List SubpassDependency
deriving DecidableEq

namespace LveSwapchain

/-- `LveSwapchain::create_render_pass` (`lve_swapchain.rs` 418-493), translated
field by field from the builder calls.  `supported` abstracts the device's
format-properties query used by `find_depth_format`; the `expect` panic when no
depth format is supported is `none`. -/
def create_render_pass (supported : Nat → Bool) (swapchain_image_format : Nat) :
    Option RenderPassCreateInfo :=
  match find_depth_format supported with
  | none => none
  | some depth_format =>
    let depth_attachment : AttachmentDescription :=
      { format := depth_format
        samples := 1
        load_op := .CLEAR
        store_op := .DONT_CARE
        stencil_load_op := .DONT_CARE
        stencil_store_op := .DONT_CARE
        initial_layout := .UNDEFINED
        final_layout := .DEPTH_STENCIL_ATTACHMENT_OPTIMAL }
    let depth_attachment_ref : AttachmentReference :=
      { attachment := 1, layout := .DEPTH_STENCIL_ATTACHMENT_OPTIMAL }
    let color_attachment : AttachmentDescription :=
      { format := swapchain_image_format
        samples := 1
        load_op := .CLEAR
        store_op := .DONT_CARE
        stencil_load_op := .DONT_CARE
        stencil_store_op := .DONT_CARE
        initial_layout := .UNDEFINED
        final_layout := .PRESENT_SRC_KHR }
    let color_attachment_ref : AttachmentReference :=
      { attachment := 0, layout := .COLOR_ATTACHMENT_OPTIMAL }
    let subpass : SubpassDescription :=
      { color_attachments := [color_attachment_ref]
        depth_stencil_attachment := depth_attachment_ref }
    let dependancy : SubpassDependency :=
      { src_subpass := SUBPASS_EXTERNAL
        dst_subpass := 0
        src_stage_mask := PIPELINE_STAGE_COLOR_ATTACHMENT_OUTPUT |||
          PIPELINE_STAGE_EARLY_FRAGMENT_TESTS
        dst_stage_mask := PIPELINE_STAGE_COLOR_ATTACHMENT_OUTPUT |||
          PIPELINE_STAGE_EARLY_FRAGMENT_TESTS
        src_access_mask := 0
        dst_access_mask := ACCESS_COLOR_ATTACHMENT_WRITE |||
          ACCESS_DEPTH_STENCIL_ATTACHMENT_WRITE }
    some { attachments := [color_attachment, depth_attachment]
           subpasses := [subpass]
           dependencies := [dependancy] }

end LveSwapchain

/-- The resource handles an `LveSwapchain` owns, in the struct's declaration
order (`lve_swapchain.rs` 9-26), restricted to what `destroy` touches. -/
structure SwapchainHandles where
  swapchain_khr : Nat
  swapchain_image_views : List Nat
  swapchain_framebuffers : List Nat
  render_pass : Nat
  depth_images : List Nat
  depth_image_memories : List Nat
  depth_image_views : List Nat
  image_available_semaphores : List Nat
  render_finished_semaphores : List Nat
  in_flight_fences : List Nat
deriving DecidableEq

/-- Device-level release calls issued by `LveSwapchain::destroy`. -/
inductive DeviceCall where
  | destroy_image_view (h : Nat)
  | destroy_swapchain (h : Nat)
  | destroy_image (h : Nat)
  | free_memory (h : Nat)
  | destroy_framebuffer (h : Nat)
  | destroy_render_pass (h : Nat)
  | destroy_semaphore (h : Nat)
  | destroy_fence (h : Nat)
deriving DecidableEq

namespace LveSwapchain

/-- `LveSwapchain::destroy` (`lve_swapchain.rs` 88-124), statement by
statement: each `iter().for_each(..)` appends one release call per handle to
the call trace, in the textual order of the source. -/
def destroy (s : SwapchainHandles) : List DeviceCall :=
  let trace : List DeviceCall := []
  let trace := trace ++ s.swapchain_image_views.map DeviceCall.destroy_image_view
  let trace := trace ++ [DeviceCall.destroy_swapchain s.swapchain_khr]
  let trace := trace ++ s.depth_image_views.map DeviceCall.destroy_image_view
  let trace := trace ++ s.depth_images.map DeviceCall.destroy_image
  let trace := trace ++ s.depth_image_memories.map DeviceCall.free_memory
  let trace := trace ++ s.swapchain_framebuffers.map DeviceCall.destroy_framebuffer
  let trace := trace ++ [DeviceCall.destroy_render_pass s.render_pass]
  let trace := trace ++ s.render_finished_semaphores.map DeviceCall.destroy_semaphore
  let trace := trace ++ s.image_available_semaphores.map DeviceCall.destroy_semaphore
  let trace := trace ++ s.in_flight_fences.map DeviceCall.destroy_fence
  trace

end LveSwapchain

/-- The release order the specification demands of `destroy`, written from the
spec's words: "image views → swapchain handle → depth image views → depth
images → depth memories → framebuffers → render pass → render-finished
semaphores → image-available semaphores → fences". -/
def spec_destroy_release_order (s : SwapchainHandles) : List DeviceCall :=
  s.swapchain_image_views.map DeviceCall.destroy_image_view
    ++ [DeviceCall.destroy_swapchain s.swapchain_khr]
    ++ s.depth_image_views.map DeviceCall.destroy_image_view
    ++ s.depth_images.map DeviceCall.destroy_image
    ++ s.depth_image_memories.map DeviceCall.free_memory
    ++ s.swapchain_framebuffers.map DeviceCall.destroy_framebuffer
    ++ [DeviceCall.destroy_render_pass s.render_pass]
    ++ s.render_finished_semaphores.map DeviceCall.destroy_semaphore
    ++ s.image_available_semaphores.map DeviceCall.destroy_semaphore
    ++ s.in_flight_fences.map DeviceCall.destroy_fence

/-- The synchronization-related mutable state of an `LveSwapchain`
(`lve_swapchain.rs` 21-25): semaphore/fence handle vectors, the per-image
fence vector (`vk::Fence::null()` is `0`), and the frame cursor. -/
structure SwapchainSyncState where
  image_available_semaphores : List Nat
  render_finished_semaphores : List Nat
  in_flight_fences : List Nat
  images_in_flight : List Nat
  current_frame : Nat
deriving DecidableEq

/-- Driver calls issued by `acquire_next_image` and `submit_command_buffers`. -/
inductive QueueCall where
  | wait_for_fences (fence : Nat)
  | acquire_next_image_khr (semaphore : Nat)
  | reset_fences (fence : Nat)
  | queue_submit (buffer wait_semaphore signal_semaphore fence : Nat)
  | queue_present (wait_semaphore image_index : Nat)
deriving DecidableEq

/-- `vk::Result::ERROR_OUT_OF_DATE_KHR` (error code, sign dropped). -/
def ERROR_OUT_OF_DATE_KHR : Nat := 1000001004

namespace LveSwapchain

/-- Sync-object initialisation from `LveSwapchain::new` /
`create_sync_objects` (`lve_swapchain.rs` 525-581 and 84): the caller-supplied
semaphore/fence handles for the `MAX_FRAMES_IN_FLIGHT` slots, an all-null
`images_in_flight` vector sized to the image count, and `current_frame = 0`. -/
def new_sync_state (image_available_semaphores render_finished_semaphores
    in_flight_fences : List Nat) (image_count : Nat) : SwapchainSyncState :=
  { image_available_semaphores := image_available_semaphores
    render_finished_semaphores := render_finished_semaphores
    in_flight_fences := in_flight_fences
    images_in_flight := List.replicate image_count 0
    current_frame := 0 }

/-- `LveSwapchain::acquire_next_image` (`lve_swapchain.rs` 155-171): wait on
the current frame's in-flight fence, then ask the presentation engine for the
next image, signalling the current frame's image-available semaphore.  The
driver's answer is the explicit parameter `acquire_result`, returned as-is. -/
def acquire_next_image (s : SwapchainSyncState)
    (acquire_result : Except Nat (Nat × Bool)) :
    List QueueCall × Except Nat (Nat × Bool) :=
  ([QueueCall.wait_for_fences (s.in_flight_fences.getD s.current_frame 0),
    QueueCall.acquire_next_image_khr
      (s.image_available_semaphores.getD s.current_frame 0)],
   acquire_result)

/-- `LveSwapchain::submit_command_buffers` (`lve_swapchain.rs` 173-232),
statement by statement: conditional wait on `images_in_flight[image_index]`,
its overwrite with `in_flight_fences[current_frame]`, fence reset, queue
submission, frame-cursor advance (before `queue_present`'s result is seen),
and the present call whose driver answer is the parameter `present_result`. -/
def submit_command_buffers (s : SwapchainSyncState) (buffer : Nat)
    (image_index : Nat) (present_result : Except Nat Bool) :
    List QueueCall × SwapchainSyncState × Except Nat Bool :=
  let wait_trace :=
    if s.images_in_flight.getD image_index 0 ≠ 0 then
      [QueueCall.wait_for_fences (s.images_in_flight.getD image_index 0)]
    else
      []
  let s := { s with images_in_flight :=
    s.images_in_flight.set image_index (s.in_flight_fences.getD s.current_frame 0) }
  let trace := wait_trace ++
    [QueueCall.reset_fences (s.in_flight_fences.getD s.current_frame 0),
     QueueCall.queue_submit buffer
       (s.image_available_semaphores.getD s.current_frame 0)
       (s.render_finished_semaphores.getD s.current_frame 0)
       (s.in_flight_fences.getD s.current_frame 0),
     QueueCall.queue_present
       (s.render_finished_semaphores.getD s.current_frame 0) image_index]
  let s := { s with current_frame := (s.current_frame + 1) % MAX_FRAMES_IN_FLIGHT }
  (trace, s, present_result)

end LveSwapchain

/-- The mutable state of an `LveRenderer` (`lve_renderer.rs` 10-17): the owned
swapchain's sync state and the frame bookkeeping fields.  Command buffers are
identified by their index into `command_buffers` (one per frame slot). -/
structure RendererState where
  swapchain : SwapchainSyncState
  current_image_index : Nat
  current_frame_index : Nat
  is_frame_started : Bool
deriving DecidableEq

/-- Renderer-level events recorded by `begin_frame` / `end_frame`. -/
inductive RendererCall where
  | acquire_next_image
  | recreate_swapchain
  | begin_command_buffer (cb : Nat)
  | end_command_buffer (cb : Nat)
  | submit_command_buffers (cb image_index : Nat)
  | device_wait_idle
deriving DecidableEq

namespace LveRenderer

/-- `LveRenderer::new` (`lve_renderer.rs` 20-36): fresh renderer over a newly
constructed swapchain, with both indices `0` and no frame in progress. -/
def new (swapchain : SwapchainSyncState) : RendererState :=
  { swapchain := swapchain
    current_image_index := 0
    current_frame_index := 0
    is_frame_started := false }

/-- `LveRenderer::begin_frame` (`lve_renderer.rs` 62-116).  The `assert!` on
a frame already in progress and the `panic!` on an unhandled acquire error are
`none`.  `acquire_result` is the driver's answer to `acquire_next_image`;
`recreated_swapchain` is the sync state of the swapchain that a (successful)
`recreate_swapchain` call would install on the out-of-date and suboptimal
paths.  Returns the call trace, the command buffer handed to the caller
(`none` = "no frame"), and the new renderer state. -/
def begin_frame (r : RendererState) (window_extent : Extent2D)
    (acquire_result : Except Nat (Nat × Bool))
    (recreated_swapchain : SwapchainSyncState) :
    Option (List RendererCall × Option Nat × RendererState) :=
  if r.is_frame_started then
    none
  else if window_extent.width = 0 ∨ window_extent.height = 0 then
    some ([], none, r)
  else
    match acquire_result with
    | .error e =>
      if e = ERROR_OUT_OF_DATE_KHR then
        some ([.acquire_next_image, .recreate_swapchain], none,
          { r with swapchain := recreated_swapchain })
      else
        none
    | .ok (current_image_index, is_subopt) =>
      let (trace, r) :=
        if is_subopt then
          ([RendererCall.acquire_next_image, RendererCall.recreate_swapchain],
           { r with swapchain := recreated_swapchain })
        else
          ([RendererCall.acquire_next_image], r)
      let r := { r with is_frame_started := true,
                        current_image_index := current_image_index }
      let command_buffer := r.current_frame_index
      some (trace ++ [.begin_command_buffer command_buffer],
            some command_buffer, r)

/-- `LveRenderer::end_frame` (`lve_renderer.rs` 118-155).  The `assert!` on no
frame in progress and the `.unwrap()` on a present error are `none`.  On
success: command buffer ended, work submitted through
`LveSwapchain::submit_command_buffers`, device waited idle, frame flag cleared
and `current_frame_index` advanced modulo `MAX_FRAMES_IN_FLIGHT`. -/
def end_frame (r : RendererState) (present_result : Except Nat Bool) :
    Option (List RendererCall × RendererState) :=
  if !r.is_frame_started then
    none
  else
    let command_buffer := r.current_frame_index
    let submission := LveSwapchain.submit_command_buffers r.swapchain
      command_buffer r.current_image_index present_result
    match submission.2.2 with
    | .error _ => none
    | .ok _ =>
      some ([.end_command_buffer command_buffer,
             .submit_command_buffers command_buffer r.current_image_index,
             .device_wait_idle],
            { r with swapchain := submission.2.1
                     is_frame_started := false
                     current_frame_index :=
                       (r.current_frame_index + 1) % MAX_FRAMES_IN_FLIGHT })

end LveRenderer

/-- `RendererSteps r k r'` holds when the renderer can evolve from state `r` to
state `r'` by a sequence of successful `begin_frame` and `end_frame` calls
(with arbitrary window extents and driver answers) of which exactly `k` are
`end_frame` calls. -/
inductive RendererSteps : RendererState → Nat → RendererState → Prop where
  | nil (r : RendererState) : RendererSteps r 0 r
  | begin_step {r r₁ r₂ : RendererState} {e : Extent2D}
      {acq : Except Nat (Nat × Bool)} {rec : SwapchainSyncState}
      {tr : List RendererCall} {cb : Option Nat} {k : Nat} :
      LveRenderer.begin_frame r e acq rec = some (tr, cb, r₁) →
      RendererSteps r₁ k r₂ → RendererSteps r k r₂
  | end_step {r r₁ r₂ : RendererState} {pr : Except Nat Bool}
      {tr : List RendererCall} {k : Nat} :
      LveRenderer.end_frame r pr = some (tr, r₁) →
      RendererSteps r₁ k r₂ → RendererSteps r (k + 1) r₂

/-- The attachment formats a swapchain bakes into its render pass: the chosen
surface image format and the chosen depth format. -/
structure SwapchainFormats where
  swapchain_image_format : Nat
  swapchain_depth_format : Nat
deriving DecidableEq

namespace LveSwapchain

/-- Modelled from the spec: `compare_swap_formats` is called by
`LveRenderer::recreate_swapchain` but its definition is not among the sources
(the `lve_swapchain.rs` present there is an older revision without it).  Per
the spec it "fails if the depth format or color format differs between this
swapchain and a newly created one". -/
def compare_swap_formats (self other : SwapchainFormats) : Except Unit Unit :=
  if self.swapchain_depth_format ≠ other.swapchain_depth_format ∨
      self.swapchain_image_format ≠ other.swapchain_image_format then
    .error ()
  else
    .ok ()

end LveSwapchain

namespace LveRenderer

/-- `LveRenderer::recreate_swapchain` (`lve_renderer.rs` 243-271), restricted
to the format bookkeeping: no-op when the window extent is degenerate;
otherwise a new swapchain (`new_swapchain`, built by the environment from the
old one's handle) is checked with `compare_swap_formats` — whose `Err` is hit
by `.unwrap()`, a fatal panic modelled as `none` — and only then installed. -/
def recreate_swapchain (old : SwapchainFormats) (window_extent : Extent2D)
    (new_swapchain : SwapchainFormats) : Option SwapchainFormats :=
  if window_extent.width = 0 ∨ window_extent.height = 0 then
    some old
  else
    match LveSwapchain.compare_swap_formats old new_swapchain with
    | .error _ => none
    | .ok _ => some new_swapchain

end LveRenderer

/-- The fields of `LveBuffer` (`lve_buffer.rs` 14-26) the addressing helpers
read.  `u64` sizes and offsets are `Nat` under `2 ^ 64`. -/
structure BufferState where
  buffer : Nat
  memory : Nat
  buffer_size : Nat
  instance_count : Nat
  instance_size : Nat
  alignment_size : Nat
deriving DecidableEq

/-- `vk::DescriptorBufferInfo` as filled by `LveBuffer::descriptor_info`. -/
structure DescriptorBufferInfo where
  buffer : Nat
  offset : Nat
  range : Nat
deriving DecidableEq

/-- `vk::MappedMemoryRange` as filled by `flush` / `invalidate`. -/
structure MappedMemoryRange where
  memory : Nat
  size : Nat
  offset : Nat
deriving DecidableEq

namespace LveBuffer

/-- `LveBuffer::new` (`lve_buffer.rs` 29-56), restricted to the size
bookkeeping: `alignment_size` from `get_alignment`, `buffer_size` as the
wrapping `u64` product `alignment_size * instance_count`. -/
def new (buffer memory : Nat) (instance_size : Nat) (instance_count : Nat)
    (min_offset_alignment : Nat) : BufferState :=
  let alignment_size := get_alignment instance_size min_offset_alignment
  let buffer_size := alignment_size * instance_count % 2 ^ 64
  { buffer := buffer
    memory := memory
    buffer_size := buffer_size
    instance_count := instance_count
    instance_size := instance_size
    alignment_size := alignment_size }

/-- The (size, offset) pair `LveBuffer::write_to_index` (`lve_buffer.rs`
204-206) passes to `write_to_buffer`: `instance_size` bytes at the wrapping
`u64` offset `index * alignment_size`. -/
def write_to_index (b : BufferState) (index : Nat) : Nat × Nat :=
  (b.instance_size, index * b.alignment_size % 2 ^ 64)

/-- `LveBuffer::flush` (`lve_buffer.rs` 132-146): the mapped range handed to
`flush_mapped_memory_ranges`. -/
def flush (b : BufferState) (size offset : Nat) : MappedMemoryRange :=
  { memory := b.memory, size := size, offset := offset }

/-- `LveBuffer::flush_index` (`lve_buffer.rs` 214-216):
`flush(alignment_size, index * alignment_size)`. -/
def flush_index (b : BufferState) (index : Nat) : MappedMemoryRange :=
  flush b b.alignment_size (index * b.alignment_size % 2 ^ 64)

/-- `LveBuffer::descriptor_info` (`lve_buffer.rs` 185-195). -/
def descriptor_info (b : BufferState) (size offset : Nat) :
    DescriptorBufferInfo :=
  { buffer := b.buffer, offset := offset, range := size }

/-- `LveBuffer::descriptor_info_for_index` (`lve_buffer.rs` 225-227):
`descriptor_info(alignment_size, index * alignment_size)`. -/
def descriptor_info_for_index (b : BufferState) (index : Nat) :
    DescriptorBufferInfo :=
  descriptor_info b b.alignment_size (index * b.alignment_size % 2 ^ 64)

/-- `LveBuffer::invalidate` (`lve_buffer.rs` 159-175): the mapped range handed
to `invalidate_mapped_memory_ranges`. -/
def invalidate (b : BufferState) (size offset : Nat) : MappedMemoryRange :=
  { memory := b.memory, size := size, offset := offset }

/-- `LveBuffer::invalidate_index` (`lve_buffer.rs` 238-240):
`invalidate(alignment_size, index * alignment_size)`. -/
def invalidate_index (b : BufferState) (index : Nat) : MappedMemoryRange :=
  invalidate b b.alignment_size (index * b.alignment_size % 2 ^ 64)

end LveBuffer

/-- The preferred surface format `choose_swap_surface_format` looks for:
(`B8G8R8A8_SRGB`, `SRGB_NONLINEAR`). -/
def preferred_surface_format : SurfaceFormatKHR :=
  { format := B8G8R8A8_SRGB, color_space := SRGB_NONLINEAR }

/-- Componentwise clamping into a closed interval, written from the spec's
words "clamped componentwise into [min_image_extent, max_image_extent]". -/
def clamp_spec (lo hi x : Nat) : Nat := min (max x lo) hi

/-- A surface format satisfies the search predicate of
`choose_swap_surface_format` exactly when it is the preferred format. -/
theorem surface_format_pred_iff (f : SurfaceFormatKHR) :
    (f.format == B8G8R8A8_SRGB && f.color_space == SRGB_NONLINEAR) = true ↔
      f = preferred_surface_format := by
  cases f
  simp [preferred_surface_format, SurfaceFormatKHR.mk.injEq, Bool.and_eq_true,
    beq_iff_eq]

/-- Claim C1 (code bug evidence): evaluating the embedded
`create_render_pass` (at a device supporting `D32_SFLOAT` and the
`B8G8R8A8_SRGB` swapchain image format) shows that the color attachment is
built with `load_op = CLEAR`, `store_op = DONT_CARE` and final layout
`PRESENT_SRC_KHR`, and the depth attachment with `load_op = CLEAR`,
`store_op = DONT_CARE` and final layout `DEPTH_STENCIL_ATTACHMENT_OPTIMAL`.
The claim (and the spec) require `store_op = STORE` on the color attachment;
the code discards it, so the presented image contents would be undefined. -/
theorem c1_render_pass_attachment_ops :
    (LveSwapchain.create_render_pass (fun f => f == D32_SFLOAT)
        B8G8R8A8_SRGB).map
        (fun rp => rp.attachments.map
          (fun a => (a.load_op, a.store_op, a.final_layout))) =
      some [(AttachmentLoadOp.CLEAR, AttachmentStoreOp.DONT_CARE,
              ImageLayout.PRESENT_SRC_KHR),
            (AttachmentLoadOp.CLEAR, AttachmentStoreOp.DONT_CARE,
              ImageLayout.DEPTH_STENCIL_ATTACHMENT_OPTIMAL)] := by
  rfl

/-- Claim C2: `compare_swap_formats` fails exactly when the depth format or
the color format differs between the two swapchains, and
`recreate_swapchain` (with a non-degenerate window extent) invokes it on the
newly constructed swapchain, panics on failure before installing anything,
and installs the new swapchain exactly when the check passes. -/
theorem c2_compare_swap_formats_recreate (a b : SwapchainFormats)
    (e : Extent2D) (new_sc : SwapchainFormats)
    (hw : e.width ≠ 0) (hh : e.height ≠ 0) :
    (LveSwapchain.compare_swap_formats a b = .error () ↔
      (a.swapchain_depth_format ≠ b.swapchain_depth_format ∨
       a.swapchain_image_format ≠ b.swapchain_image_format)) ∧
    (LveRenderer.recreate_swapchain a e new_sc = none ↔
      LveSwapchain.compare_swap_formats a new_sc = .error ()) ∧
    (LveRenderer.recreate_swapchain a e new_sc = some new_sc ↔
      LveSwapchain.compare_swap_formats a new_sc = .ok ()) := by
  unfold LveRenderer.recreate_swapchain LveSwapchain.compare_swap_formats
  simp only [hw, hh, false_or, if_false]
  constructor
  · split <;> simp_all
  · constructor <;> · split <;> simp_all

/-- Claim C2 witness: with an old swapchain of formats (50, 126) and a new one
of formats (50, 129), the compare fails and `recreate_swapchain` is fatal. -/
theorem c2_witness :
    (LveSwapchain.compare_swap_formats ⟨50, 126⟩ ⟨50, 129⟩ = .error () ↔
      ((126 : Nat) ≠ 129 ∨ (50 : Nat) ≠ 50)) ∧
    (LveRenderer.recreate_swapchain ⟨50, 126⟩ ⟨800, 600⟩ ⟨50, 129⟩ = none ↔
      LveSwapchain.compare_swap_formats ⟨50, 126⟩ ⟨50, 129⟩ = .error ()) ∧
    (LveRenderer.recreate_swapchain ⟨50, 126⟩ ⟨800, 600⟩ ⟨50, 129⟩ =
        some ⟨50, 129⟩ ↔
      LveSwapchain.compare_swap_formats ⟨50, 126⟩ ⟨50, 129⟩ = .ok ()) :=
  c2_compare_swap_formats_recreate ⟨50, 126⟩ ⟨50, 129⟩ ⟨800, 600⟩ ⟨50, 129⟩
    (by decide) (by decide)

/-- Claim C5: a `begin_frame` call in the Idle state whose window extent has
width 0 or height 0 returns "no frame" (`none` command buffer), records no
driver call (in particular acquires no image and begins no recording), and
leaves the renderer state unchanged. -/
theorem c5_begin_frame_minimized_no_frame (r : RendererState) (e : Extent2D)
    (acq : Except Nat (Nat × Bool)) (rec : SwapchainSyncState)
    (hidle : r.is_frame_started = false)
    (hdeg : e.width = 0 ∨ e.height = 0) :
    LveRenderer.begin_frame r e acq rec = some ([], none, r) := by
  unfold LveRenderer.begin_frame
  simp [hidle, hdeg]

/-- Claim C5 witness: a fresh renderer and a 0×600 window extent. -/
theorem c5_witness :
    LveRenderer.begin_frame
        (LveRenderer.new (LveSwapchain.new_sync_state [10, 11] [20, 21]
          [30, 31] 3))
        ⟨0, 600⟩ (.ok (0, false))
        (LveSwapchain.new_sync_state [10, 11] [20, 21] [30, 31] 3) =
      some ([], none,
        LveRenderer.new (LveSwapchain.new_sync_state [10, 11] [20, 21]
          [30, 31] 3)) :=
  c5_begin_frame_minimized_no_frame _ _ _ _ (by rfl) (Or.inl (by rfl))

/-- Claim C7: if the available surface format list contains the preferred
(`B8G8R8A8_SRGB`, `SRGB_NONLINEAR`) pair, `choose_swap_surface_format`
returns exactly that pair; otherwise it returns the first list element (the
embedding's `l[0]?`, which is the head whenever the list is non-empty). -/
theorem c7_choose_swap_surface_format (l : List SurfaceFormatKHR) :
    (preferred_surface_format ∈ l →
      LveSwapchain.choose_swap_surface_format l =
        some preferred_surface_format) ∧
    (preferred_surface_format ∉ l →
      LveSwapchain.choose_swap_surface_format l = l[0]?) := by
  constructor
  · intro hmem
    unfold LveSwapchain.choose_swap_surface_format
    have hsome : (l.find? (fun available_format =>
        available_format.format == B8G8R8A8_SRGB
          && available_format.color_space == SRGB_NONLINEAR)).isSome := by
      rw [List.find?_isSome]
      exact ⟨preferred_surface_format, hmem,
        (surface_format_pred_iff preferred_surface_format).mpr rfl⟩
    obtain ⟨a, ha⟩ := Option.isSome_iff_exists.mp hsome
    have hpa := List.find?_some ha
    rw [ha, (surface_format_pred_iff a).mp hpa]
  · intro hnot
    unfold LveSwapchain.choose_swap_surface_format
    have hnone : l.find? (fun available_format =>
        available_format.format == B8G8R8A8_SRGB
          && available_format.color_space == SRGB_NONLINEAR) = none := by
      rw [List.find?_eq_none]
      intro x hx hpx
      exact hnot ((surface_format_pred_iff x).mp hpx ▸ hx)
    rw [hnone]

/-- Claim C7 witness: a list containing the preferred pair yields it; a list
without it yields its first element. -/
theorem c7_witness :
    LveSwapchain.choose_swap_surface_format [⟨1, 2⟩, preferred_surface_format]
        = some preferred_surface_format ∧
    LveSwapchain.choose_swap_surface_format [⟨1, 2⟩, ⟨3, 4⟩] =
      [(⟨1, 2⟩ : SurfaceFormatKHR), ⟨3, 4⟩][0]? :=
  ⟨(c7_choose_swap_surface_format [⟨1, 2⟩, preferred_surface_format]).1
      (by decide),
   (c7_choose_swap_surface_format [⟨1, 2⟩, ⟨3, 4⟩]).2 (by decide)⟩

/-- Claim C8: `destroy` issues exactly the release calls demanded by the
spec, in the spec's order: image views, then the swapchain handle, then depth
image views, then depth images, then depth memories, then framebuffers, then
the render pass, then render-finished semaphores, then image-available
semaphores, then fences. -/
theorem c8_destroy_release_order (s : SwapchainHandles) :
    LveSwapchain.destroy s = spec_destroy_release_order s := by
  simp [LveSwapchain.destroy, spec_destroy_release_order, List.append_assoc]

/-- Claim C10: on the empty format list `choose_swap_surface_format` reaches
the out-of-bounds fallback access `available_formats[0]` and panics (the
embedding's `none`) instead of returning a value, while on every non-empty
list it returns a value. -/
theorem c10_choose_swap_surface_format_empty :
    LveSwapchain.choose_swap_surface_format [] = none ∧
    ∀ l : List SurfaceFormatKHR, l ≠ [] →
      (LveSwapchain.choose_swap_surface_format l).isSome = true := by
  constructor
  · rfl
  · intro l hl
    unfold LveSwapchain.choose_swap_surface_format
    cases hfind : l.find? (fun available_format =>
        available_format.format == B8G8R8A8_SRGB
          && available_format.color_space == SRGB_NONLINEAR) with
    | none =>
      obtain ⟨x, xs, rfl⟩ := List.exists_cons_of_ne_nil hl
      simp
    | some a =>
      rfl

/-- Claim C10 witness: a singleton format list yields a value. -/
theorem c10_witness :
    (LveSwapchain.choose_swap_surface_format [⟨1, 2⟩]).isSome = true :=
  c10_choose_swap_surface_format_empty.2 [⟨1, 2⟩] (by decide)

/-- Claim C6 counterexample: the Vulkan sentinel "undefined" extent is
(`u32::MAX`, `u32::MAX`), but the code tests only the width component.  For
capabilities whose `current_extent` is (`u32::MAX`, 100) — not the sentinel —
and bounds [1,1]..[200,200], a 50×50 window makes `choose_swap_extent` return
the clamped 50×50 instead of `current_extent`, refuting the claim as
stated. -/
theorem c6_counterexample :
    (SurfaceCapabilitiesKHR.mk ⟨U32_MAX, 100⟩ ⟨1, 1⟩ ⟨200, 200⟩ 2 3).current_extent
        ≠ ⟨U32_MAX, U32_MAX⟩ ∧
    0 < (50 : Nat) ∧
    LveSwapchain.choose_swap_extent
        (SurfaceCapabilitiesKHR.mk ⟨U32_MAX, 100⟩ ⟨1, 1⟩ ⟨200, 200⟩ 2 3)
        ⟨50, 50⟩ ≠
      (SurfaceCapabilitiesKHR.mk ⟨U32_MAX, 100⟩ ⟨1, 1⟩ ⟨200, 200⟩ 2 3).current_extent ∧
    LveSwapchain.choose_swap_extent
        (SurfaceCapabilitiesKHR.mk ⟨U32_MAX, 100⟩ ⟨1, 1⟩ ⟨200, 200⟩ 2 3)
        ⟨50, 50⟩ = ⟨50, 50⟩ := by
  decide

/-- Claim C6 (amended): for every capabilities value and window extent with
positive dimensions and ordered image-extent bounds, `choose_swap_extent`
returns exactly `current_extent` when `current_extent.width` is not the
sentinel width `u32::MAX` (the code tests only the width component), and
otherwise returns the window extent clamped componentwise into
[`min_image_extent`, `max_image_extent`], hence within those bounds. -/
theorem c6_choose_swap_extent_amended (caps : SurfaceCapabilitiesKHR)
    (wext : Extent2D) (hw : 0 < wext.width) (hh : 0 < wext.height)
    (hbw : caps.min_image_extent.width ≤ caps.max_image_extent.width)
    (hbh : caps.min_image_extent.height ≤ caps.max_image_extent.height) :
    (caps.current_extent.width ≠ U32_MAX →
      LveSwapchain.choose_swap_extent caps wext = caps.current_extent) ∧
    (caps.current_extent.width = U32_MAX →
      LveSwapchain.choose_swap_extent caps wext =
        ⟨clamp_spec caps.min_image_extent.width caps.max_image_extent.width
           wext.width,
         clamp_spec caps.min_image_extent.height caps.max_image_extent.height
           wext.height⟩ ∧
      caps.min_image_extent.width ≤
        (LveSwapchain.choose_swap_extent caps wext).width ∧
      (LveSwapchain.choose_swap_extent caps wext).width ≤
        caps.max_image_extent.width ∧
      caps.min_image_extent.height ≤
        (LveSwapchain.choose_swap_extent caps wext).height ∧
      (LveSwapchain.choose_swap_extent caps wext).height ≤
        caps.max_image_extent.height) := by
  unfold LveSwapchain.choose_swap_extent clamp_spec
  constructor
  · intro hne
    rw [if_pos hne]
  · intro heq
    rw [if_neg (by simp [heq])]
    refine ⟨?_, ?_, ?_, ?_, ?_⟩ <;> simp <;> omega

/-- Claim C3: in every `submit_command_buffers` call, if
`images_in_flight[image_index]` is non-null then the very first driver call of
the submission is a wait on that fence (before the fence reset, the queue
submission and the present); and afterwards `images_in_flight[image_index]`
holds `in_flight_fences[current_frame]`, the fence of the frame now using
that image. -/
theorem c3_submit_waits_image_fence (s : SwapchainSyncState)
    (buffer image_index : Nat) (pr : Except Nat Bool)
    (himg : image_index < s.images_in_flight.length) :
    (s.images_in_flight.getD image_index 0 ≠ 0 →
      ((LveSwapchain.submit_command_buffers s buffer image_index pr).1).head? =
        some (QueueCall.wait_for_fences
          (s.images_in_flight.getD image_index 0))) ∧
    ((LveSwapchain.submit_command_buffers s buffer image_index
        pr).2.1).images_in_flight.getD image_index 0 =
      s.in_flight_fences.getD s.current_frame 0 := by
  constructor
  · intro hnz
    rw [List.getD_eq_getElem?_getD] at hnz
    simp [LveSwapchain.submit_command_buffers, hnz]
  · simp [LveSwapchain.submit_command_buffers, List.getD_eq_getElem?_getD,
      List.getElem?_set_self himg]

/-- Claim C3 witness: with `images_in_flight = [0, 7, 0]`, fences `[30, 31]`
and frame cursor 0, submitting for image 1 first waits on fence 7 and then
records fence 30 for image 1. -/
theorem c3_witness :
    ((LveSwapchain.submit_command_buffers
        ⟨[10, 11], [20, 21], [30, 31], [0, 7, 0], 0⟩ 5 1 (.ok false)).1).head? =
      some (QueueCall.wait_for_fences 7) ∧
    ((LveSwapchain.submit_command_buffers
        ⟨[10, 11], [20, 21], [30, 31], [0, 7, 0], 0⟩ 5 1
        (.ok false)).2.1).images_in_flight.getD 1 0 = 30 :=
  ⟨(c3_submit_waits_image_fence ⟨[10, 11], [20, 21], [30, 31], [0, 7, 0], 0⟩
      5 1 (.ok false) (by decide)).1 (by decide),
   (c3_submit_waits_image_fence ⟨[10, 11], [20, 21], [30, 31], [0, 7, 0], 0⟩
      5 1 (.ok false) (by decide)).2⟩

/-- A successful `begin_frame` never changes `current_frame_index`. -/
theorem begin_frame_preserves_frame_index {r : RendererState} {e : Extent2D}
    {acq : Except Nat (Nat × Bool)} {rec : SwapchainSyncState}
    {tr : List RendererCall} {cb : Option Nat} {r₁ : RendererState}
    (h : LveRenderer.begin_frame r e acq rec = some (tr, cb, r₁)) :
    r₁.current_frame_index = r.current_frame_index := by
  unfold LveRenderer.begin_frame at h
  split at h
  · exact Option.noConfusion h
  · split at h
    · simp only [Option.some.injEq, Prod.mk.injEq] at h
      obtain ⟨-, -, h3⟩ := h
      rw [← h3]
    · split at h
      · split at h
        · simp only [Option.some.injEq, Prod.mk.injEq] at h
          obtain ⟨-, -, h3⟩ := h
          rw [← h3]
        · exact Option.noConfusion h
      · rename_i idx subopt
        cases subopt <;>
          · simp only [Bool.false_eq_true, Bool.true_eq_false, if_true,
              if_false, reduceIte, Option.some.injEq, Prod.mk.injEq] at h
            obtain ⟨-, -, h3⟩ := h
            rw [← h3]

/-- A successful `end_frame` advances `current_frame_index` by one modulo
`MAX_FRAMES_IN_FLIGHT`. -/
theorem end_frame_advances_frame_index {r : RendererState}
    {pr : Except Nat Bool} {tr : List RendererCall} {r₁ : RendererState}
    (h : LveRenderer.end_frame r pr = some (tr, r₁)) :
    r₁.current_frame_index =
      (r.current_frame_index + 1) % MAX_FRAMES_IN_FLIGHT := by
  unfold LveRenderer.end_frame at h
  split at h
  · exact Option.noConfusion h
  · cases pr with
    | error e => simp [LveSwapchain.submit_command_buffers] at h
    | ok b =>
      simp only [LveSwapchain.submit_command_buffers, Option.some.injEq,
        Prod.mk.injEq] at h
      obtain ⟨-, h3⟩ := h
      rw [← h3]

/-- Along any successful renderer history, the frame index evolves by the
number of `end_frame` calls, modulo `MAX_FRAMES_IN_FLIGHT`. -/
theorem steps_frame_index {r r₂ : RendererState} {k : Nat}
    (h : RendererSteps r k r₂) :
    r.current_frame_index < MAX_FRAMES_IN_FLIGHT →
    r₂.current_frame_index =
      (r.current_frame_index + k) % MAX_FRAMES_IN_FLIGHT := by
  induction h with
  | nil r =>
    intro hlt
    simp only [MAX_FRAMES_IN_FLIGHT] at *
    omega
  | begin_step hb _ ih =>
    intro hlt
    have h1 := begin_frame_preserves_frame_index hb
    have h2 := ih (by rw [h1]; exact hlt)
    rw [h2, h1]
  | end_step he _ ih =>
    intro hlt
    have h1 := end_frame_advances_frame_index he
    have h2 := ih (by
      rw [h1]
      exact Nat.mod_lt _ (by simp [MAX_FRAMES_IN_FLIGHT]))
    rw [h2, h1]
    simp only [MAX_FRAMES_IN_FLIGHT]
    omega

/-- Claim C4: starting from a freshly constructed renderer, after any
successful history containing k `end_frame` calls the renderer's
`current_frame_index` equals k mod `MAX_FRAMES_IN_FLIGHT` (= 2); and inside
every `submit_command_buffers` call the swapchain's `current_frame` is
advanced to (current_frame + 1) mod `MAX_FRAMES_IN_FLIGHT` independently of
the present result, which is returned to the caller unchanged — so the cursor
advances even when present fails. -/
theorem c4_frame_index_cycling :
    (∀ (sc : SwapchainSyncState) (k : Nat) (r' : RendererState),
      RendererSteps (LveRenderer.new sc) k r' →
      r'.current_frame_index = k % MAX_FRAMES_IN_FLIGHT) ∧
    (∀ (s : SwapchainSyncState) (buffer image_index : Nat)
      (pr : Except Nat Bool),
      ((LveSwapchain.submit_command_buffers s buffer image_index
          pr).2.1).current_frame =
        (s.current_frame + 1) % MAX_FRAMES_IN_FLIGHT ∧
      (LveSwapchain.submit_command_buffers s buffer image_index pr).2.2 =
        pr) := by
  constructor
  · intro sc k r' h
    have h1 := steps_frame_index h
      (by simp [LveRenderer.new, MAX_FRAMES_IN_FLIGHT])
    simpa [LveRenderer.new] using h1
  · intro s buffer image_index pr
    constructor <;> simp [LveSwapchain.submit_command_buffers]

/-- Claim C4 witness: one begin/end round from a fresh renderer leaves the
frame index at 1 = 1 mod 2. -/
theorem c4_witness :
    RendererSteps
      (LveRenderer.new ⟨[10, 11], [20, 21], [30, 31], [0, 0, 0], 0⟩) 1
      ⟨⟨[10, 11], [20, 21], [30, 31], [0, 30, 0], 1⟩, 1, 1, false⟩ ∧
    (⟨⟨[10, 11], [20, 21], [30, 31], [0, 30, 0], 1⟩, 1, 1,
      false⟩ : RendererState).current_frame_index =
      1 % MAX_FRAMES_IN_FLIGHT := by
  have hb : LveRenderer.begin_frame
      (LveRenderer.new ⟨[10, 11], [20, 21], [30, 31], [0, 0, 0], 0⟩)
      ⟨800, 600⟩ (.ok (1, false))
      ⟨[10, 11], [20, 21], [30, 31], [0, 0, 0], 0⟩ =
      some ([.acquire_next_image, .begin_command_buffer 0], some 0,
        ⟨⟨[10, 11], [20, 21], [30, 31], [0, 0, 0], 0⟩, 1, 0, true⟩) := by
    rfl
  have he : LveRenderer.end_frame
      ⟨⟨[10, 11], [20, 21], [30, 31], [0, 0, 0], 0⟩, 1, 0, true⟩
      (.ok false) =
      some ([.end_command_buffer 0, .submit_command_buffers 0 1,
        .device_wait_idle],
        ⟨⟨[10, 11], [20, 21], [30, 31], [0, 30, 0], 1⟩, 1, 1, false⟩) := by
    rfl
  have hsteps := RendererSteps.begin_step hb
    (RendererSteps.end_step he (RendererSteps.nil _))
  exact ⟨hsteps,
    c4_frame_index_cycling.1 ⟨[10, 11], [20, 21], [30, 31], [0, 0, 0], 0⟩ 1
      ⟨⟨[10, 11], [20, 21], [30, 31], [0, 30, 0], 1⟩, 1, 1, false⟩ hsteps⟩

/-- Masking a 64-bit value with the complement of `2 ^ k - 1` clears its low
`k` bits, i.e. rounds it down to a multiple of `2 ^ k`. -/
theorem land_complement_pow_two {x k : Nat} (hx : x < 2 ^ 64) (hk : k ≤ 64) :
    x &&& ((2 ^ 64 - 1) ^^^ (2 ^ k - 1)) = x / 2 ^ k * 2 ^ k := by
  have hrw : x / 2 ^ k * 2 ^ k = (x >>> k) <<< k := by
    rw [Nat.shiftLeft_eq, Nat.shiftRight_eq_div_pow]
  rw [hrw]
  apply Nat.eq_of_testBit_eq
  intro i
  simp only [Nat.testBit_and, Nat.testBit_xor, Nat.testBit_two_pow_sub_one,
    Nat.testBit_shiftLeft, Nat.testBit_shiftRight]
  by_cases h1 : i < k
  · have h2 : i < 64 := lt_of_lt_of_le h1 hk
    simp [h1, h2, Nat.not_le.mpr h1]
  · by_cases h2 : i < 64
    · have h3 : k + (i - k) = i := by omega
      simp [h1, h2, Nat.le_of_not_lt h1, h3]
    · have h3 : k + (i - k) = i := by omega
      have h4 : x < 2 ^ i :=
        lt_of_lt_of_le hx (Nat.pow_le_pow_right (by norm_num) (by omega))
      simp [h1, h2, Nat.le_of_not_lt h1, h3, Nat.testBit_lt_two_pow h4]

/-- For a power-of-two alignment `2 ^ k` and no `u64` overflow,
`get_alignment` computes `((s + 2 ^ k - 1) / 2 ^ k) * 2 ^ k`. -/
theorem get_alignment_pow_two {s k : Nat} (hk : k < 64)
    (hs : s + 2 ^ k - 1 < 2 ^ 64) :
    LveBuffer.get_alignment s (2 ^ k) = (s + 2 ^ k - 1) / 2 ^ k * 2 ^ k := by
  unfold LveBuffer.get_alignment
  rw [if_pos (Nat.two_pow_pos k), Nat.mod_eq_of_lt hs,
    land_complement_pow_two hs (Nat.le_of_lt hk)]

/-- Claim C9 counterexample: for instance size 4 and minimum offset alignment
3 (not a power of two), the stored `alignment_size` is 4, which is not a
multiple of 3 — so it is not "4 rounded up to a multiple of 3" (that would be
6).  The bit trick in `get_alignment` computes a round-up only for
power-of-two alignments. -/
theorem c9_counterexample :
    LveBuffer.get_alignment 4 3 = 4 ∧
    LveBuffer.get_alignment 4 3 % 3 ≠ 0 ∧
    LveBuffer.get_alignment 4 3 ≠ 6 := by
  decide

/-- Claim C9 (amended): for a power-of-two minimum offset alignment
`2 ^ k` (as Vulkan guarantees for `minUniformBufferOffsetAlignment`) without
`u64` overflow, `alignment_size` is the instance size rounded up to a
multiple of the alignment (the least such multiple: divisible, at least `s`,
less than `s + 2 ^ k`); it equals the instance size when the alignment is 0;
and every index-based helper (`write_to_index`, `flush_index`,
`descriptor_info_for_index`, `invalidate_index`) addresses the region at
offset index × `alignment_size`. -/
theorem c9_get_alignment_amended (s k : Nat) (hk : k < 64)
    (hs : s + 2 ^ k - 1 < 2 ^ 64) :
    (2 ^ k ∣ LveBuffer.get_alignment s (2 ^ k) ∧
     s ≤ LveBuffer.get_alignment s (2 ^ k) ∧
     LveBuffer.get_alignment s (2 ^ k) < s + 2 ^ k) ∧
    (∀ s2 : Nat, LveBuffer.get_alignment s2 0 = s2) ∧
    (∀ (b : BufferState) (index : Nat), index * b.alignment_size < 2 ^ 64 →
      (LveBuffer.write_to_index b index).2 = index * b.alignment_size ∧
      (LveBuffer.flush_index b index).offset = index * b.alignment_size ∧
      (LveBuffer.descriptor_info_for_index b index).offset =
        index * b.alignment_size ∧
      (LveBuffer.invalidate_index b index).offset =
        index * b.alignment_size) ∧
    (∀ buffer memory instance_size instance_count min_offset_alignment : Nat,
      (LveBuffer.new buffer memory instance_size instance_count
          min_offset_alignment).alignment_size =
        LveBuffer.get_alignment instance_size min_offset_alignment) := by
  refine ⟨?_, ?_, ?_, ?_⟩
  · rw [get_alignment_pow_two hk hs]
    have hpos : 0 < 2 ^ k := Nat.two_pow_pos k
    have hdm := Nat.div_add_mod (s + 2 ^ k - 1) (2 ^ k)
    have hmod : (s + 2 ^ k - 1) % 2 ^ k < 2 ^ k :=
      Nat.mod_lt _ hpos
    refine ⟨dvd_mul_left _ _, ?_, ?_⟩ <;>
      · rw [Nat.mul_comm ((s + 2 ^ k - 1) / 2 ^ k) (2 ^ k)]
        generalize hA : 2 ^ k = A at *
        generalize hP : A * ((s + A - 1) / A) = P at *
        omega
  · intro s2
    simp [LveBuffer.get_alignment]
  · intro b index h
    simp only [LveBuffer.write_to_index, LveBuffer.flush_index,
      LveBuffer.flush, LveBuffer.descriptor_info_for_index,
      LveBuffer.descriptor_info, LveBuffer.invalidate_index,
      LveBuffer.invalidate]
    refine ⟨?_, ?_, ?_, ?_⟩ <;> exact Nat.mod_eq_of_lt h
  · intro buffer memory instance_size instance_count min_offset_alignment
    simp [LveBuffer.new]

/-- Claim C9 witness: instance size 5 with alignment 4 = 2 ^ 2 rounds up to
8, and the helpers address offset index × `alignment_size`. -/
theorem c9_witness :
    ((2 ^ 2 ∣ LveBuffer.get_alignment 5 (2 ^ 2) ∧
      5 ≤ LveBuffer.get_alignment 5 (2 ^ 2) ∧
      LveBuffer.get_alignment 5 (2 ^ 2) < 5 + 2 ^ 2) ∧
     (∀ s2 : Nat, LveBuffer.get_alignment s2 0 = s2) ∧
     (∀ (b : BufferState) (index : Nat), index * b.alignment_size < 2 ^ 64 →
       (LveBuffer.write_to_index b index).2 = index * b.alignment_size ∧
       (LveBuffer.flush_index b index).offset = index * b.alignment_size ∧
       (LveBuffer.descriptor_info_for_index b index).offset =
         index * b.alignment_size ∧
       (LveBuffer.invalidate_index b index).offset =
         index * b.alignment_size) ∧
     (∀ buffer memory instance_size instance_count min_offset_alignment : Nat,
       (LveBuffer.new buffer memory instance_size instance_count
           min_offset_alignment).alignment_size =
         LveBuffer.get_alignment instance_size min_offset_alignment)) :=
  c9_get_alignment_amended 5 2 (by decide) (by decide)

/-- Claim C6 witness: a fixed 1024×768 `current_extent` is returned as-is for
an 800×600 window. -/
theorem c6_witness :
    ((SurfaceCapabilitiesKHR.mk ⟨1024, 768⟩ ⟨1, 1⟩ ⟨2000, 2000⟩ 2 3).current_extent.width
        ≠ U32_MAX →
      LveSwapchain.choose_swap_extent
          (SurfaceCapabilitiesKHR.mk ⟨1024, 768⟩ ⟨1, 1⟩ ⟨2000, 2000⟩ 2 3)
          ⟨800, 600⟩ =
        (SurfaceCapabilitiesKHR.mk ⟨1024, 768⟩ ⟨1, 1⟩ ⟨2000, 2000⟩ 2 3).current_extent) ∧
    LveSwapchain.choose_swap_extent
        (SurfaceCapabilitiesKHR.mk ⟨1024, 768⟩ ⟨1, 1⟩ ⟨2000, 2000⟩ 2 3)
        ⟨800, 600⟩ = ⟨1024, 768⟩ :=
  ⟨fun h => (c6_choose_swap_extent_amended
      (SurfaceCapabilitiesKHR.mk ⟨1024, 768⟩ ⟨1, 1⟩ ⟨2000, 2000⟩ 2 3)
      ⟨800, 600⟩ (by decide) (by decide) (by decide) (by decide)).1 h,
   (c6_choose_swap_extent_amended
      (SurfaceCapabilitiesKHR.mk ⟨1024, 768⟩ ⟨1, 1⟩ ⟨2000, 2000⟩ 2 3)
      ⟨800, 600⟩ (by decide) (by decide) (by decide) (by decide)).1
     (by decide)⟩
